import Mathlib

/-!
Verification of the `PomoTimer` state machine (src/main.rs).

Shallow embedding of the Pomodoro timer from `src/main.rs`.  Durations and
instants are nanosecond counts (`Nat`).  The `instant` crate's wasm `Instant`
wraps a `Duration` since the page origin, so instants and durations share the
same representable maximum `DMAX` (`Duration::MAX`).  Checked arithmetic
(`checked_add`, `checked_sub`, `checked_duration_since`) is modelled with
`Option`; the panicking `Instant + Duration` additions are modelled by
operations returning `Option`, where `none` is an arithmetic-overflow panic.
Every operation that reads the clock takes the current instant `now` as an
explicit argument.
-/

namespace Pomo

/-- Maximum representable `Duration` in nanoseconds: `u64::MAX` seconds plus
`999_999_999` nanoseconds (`Duration::MAX`). -/
def DMAX : Nat := (2 ^ 64 - 1) * 1000000000 + 999999999

/-- Model of `checked_add` on durations/instants: `none` when the sum is not
representable. -/
def checkedAdd (a b : Nat) : Option Nat :=
  if a + b ≤ DMAX then some (a + b) else none

/-- Model of `checked_sub` on durations and `checked_duration_since` on
instants: `none` when the subtrahend exceeds the minuend. -/
def checkedSub (a b : Nat) : Option Nat :=
  if b ≤ a then some (a - b) else none

/-- Five minutes (`Duration::from_secs(5 * 60)`) in nanoseconds, the floor
used by `decrease_duration`. -/
def FIVE_MIN : Nat := 5 * 60 * 1000000000

/-- The `enum TimerState` from src/main.rs; `Paused` records the monotonic
instant pausing began. -/
inductive TimerState where
  | Inactive
  | Working
  | Resting
  | Paused (pausedAt : Nat)
deriving DecidableEq

/-- The `struct PomoTimer` from src/main.rs. -/
structure PomoTimer where
  work_duration : Nat
  rest_duration : Nat
  deadline : Nat
  state : TimerState
deriving DecidableEq

/-- Model of `PomoTimer::new`: deadline is `now.checked_add(work_duration)` with the
fallback clock read of `unwrap_or_else(Instant::now)` modelled by the same
`now`; the state starts `Inactive` and `rest_duration` is stored verbatim. -/
def PomoTimer.new (work_duration rest_duration now : Nat) : PomoTimer :=
  { work_duration := work_duration
    rest_duration := rest_duration
    deadline := (checkedAdd now work_duration).getD now
    state := TimerState.Inactive }

/-- Model of `PomoTimer::start`.  From `Inactive`: no-op when `work_duration` is zero,
else arm the deadline and enter `Working`.  From `Paused`: shift the deadline
by the paused span with the panicking `+=` (`none` models the overflow panic)
and force `Working`.  Other states: no-op. -/
def PomoTimer.start (t : PomoTimer) (now : Nat) : Option PomoTimer :=
  match t.state with
  | TimerState.Inactive =>
      if t.work_duration = 0 then some t
      else
        some { t with
          deadline := (checkedAdd now t.work_duration).getD now
          state := TimerState.Working }
  | TimerState.Paused pausedAt =>
      match checkedAdd t.deadline ((checkedSub now pausedAt).getD 0) with
      | some d => some { t with deadline := d, state := TimerState.Working }
      | none => none
  | TimerState.Working => some t
  | TimerState.Resting => some t

/-- Model of `PomoTimer::stop`: record the pause instant when `Working`/`Resting`;
otherwise a no-op.  The deadline is untouched. -/
def PomoTimer.stop (t : PomoTimer) (now : Nat) : PomoTimer :=
  match t.state with
  | TimerState.Working => { t with state := TimerState.Paused now }
  | TimerState.Resting => { t with state := TimerState.Paused now }
  | _ => t

/-- Model of `PomoTimer::reset`: back to `Inactive`, all other fields untouched. -/
def PomoTimer.reset (t : PomoTimer) : PomoTimer :=
  { t with state := TimerState.Inactive }

/-- Model of `PomoTimer::time_left`:
`deadline.checked_duration_since(now).unwrap_or(ZERO)`. -/
def PomoTimer.time_left (t : PomoTimer) (now : Nat) : Nat :=
  (checkedSub t.deadline now).getD 0

/-- Model of `PomoTimer::flip`: switch state and re-arm the deadline with the
panicking `Instant::now() + duration` (`none` models the overflow panic),
then call `ring()`; the returned flag records that the alert sink was
invoked. -/
def PomoTimer.flip (t : PomoTimer) (now : Nat) : Option (PomoTimer × Bool) :=
  match t.state with
  | TimerState.Working =>
      (checkedAdd now t.rest_duration).map fun d =>
        ({ t with state := TimerState.Resting, deadline := d }, true)
  | TimerState.Resting =>
      (checkedAdd now t.work_duration).map fun d =>
        ({ t with state := TimerState.Working, deadline := d }, true)
  | TimerState.Inactive =>
      (checkedAdd now t.work_duration).map fun d =>
        ({ t with state := TimerState.Working, deadline := d }, true)
  | TimerState.Paused _ =>
      (checkedAdd now t.work_duration).map fun d =>
        ({ t with state := TimerState.Working, deadline := d }, true)

/-- Model of `PomoTimer::update`: flips exactly when `Working`/`Resting` with no time
left; otherwise a no-op.  The flag records whether the alert rang. -/
def PomoTimer.update (t : PomoTimer) (now : Nat) : Option (PomoTimer × Bool) :=
  match t.state with
  | TimerState.Working =>
      if t.time_left now = 0 then t.flip now else some (t, false)
  | TimerState.Resting =>
      if t.time_left now = 0 then t.flip now else some (t, false)
  | _ => some (t, false)

/-- Model of `PomoTimer::increase_duration`: work duration saturates at `Duration::MAX`,
rest duration is recomputed as a fifth, and the deadline is shifted by the
same amount when that addition is representable (unchanged otherwise). -/
def PomoTimer.increase_duration (t : PomoTimer) (increase : Nat) : PomoTimer :=
  let duration := (checkedAdd t.work_duration increase).getD DMAX
  let t1 := { t with work_duration := duration, rest_duration := duration / 5 }
  match checkedAdd t.deadline increase with
  | some d => { t1 with deadline := d }
  | none => t1

/-- Model of `PomoTimer::decrease_duration`: work duration saturates at the five-minute
floor (both on underflow and below the floor), rest duration is recomputed as
a fifth, and the deadline is shifted back by the same amount when that
subtraction is representable (unchanged otherwise). -/
def PomoTimer.decrease_duration (t : PomoTimer) (decrease : Nat) : PomoTimer :=
  let d0 := (checkedSub t.work_duration decrease).getD FIVE_MIN
  let duration := if d0 < FIVE_MIN then FIVE_MIN else d0
  let t1 := { t with work_duration := duration, rest_duration := duration / 5 }
  match checkedSub t.deadline decrease with
  | some d => { t1 with deadline := d }
  | none => t1

/-- Model of `PomoTimer::toggle_pause`: `stop` when running, `start` otherwise. -/
def PomoTimer.toggle_pause (t : PomoTimer) (now : Nat) : Option PomoTimer :=
  match t.state with
  | TimerState.Working => some (t.stop now)
  | TimerState.Resting => some (t.stop now)
  | TimerState.Paused _ => t.start now
  | TimerState.Inactive => t.start now

/-- The remaining-time value computed by `impl Display for PomoTimer`:
frozen span while `Paused`, full work duration while `Inactive`, live
`time_left` otherwise. -/
def PomoTimer.display_time_left (t : PomoTimer) (now : Nat) : Nat :=
  match t.state with
  | TimerState.Paused pausedAt => (checkedSub t.deadline pausedAt).getD 0
  | TimerState.Inactive => t.work_duration
  | TimerState.Working => t.time_left now
  | TimerState.Resting => t.time_left now

/-- The duration `flip` would arm next: the rest duration when leaving
`Working`, the work duration from every other state. -/
def PomoTimer.next_duration (t : PomoTimer) : Nat :=
  match t.state with
  | TimerState.Working => t.rest_duration
  | _ => t.work_duration

theorem checkedSub_getD (a b : Nat) : (checkedSub a b).getD 0 = a - b := by
  unfold checkedSub
  split
  · rfl
  · simp only [Option.getD_none]
    omega

theorem time_left_eq (t : PomoTimer) (now : Nat) :
    t.time_left now = t.deadline - now := by
  unfold PomoTimer.time_left
  exact checkedSub_getD _ _

theorem natSub_toInt (a b : Nat) :
    ((a - b : Nat) : Int) = max 0 ((a : Int) - (b : Int)) := by
  rw [max_def]
  split <;> omega

theorem increase_duration_eq (t : PomoTimer) (d : Nat) :
    t.increase_duration d =
      { work_duration := if t.work_duration + d ≤ DMAX then t.work_duration + d else DMAX
        rest_duration :=
          (if t.work_duration + d ≤ DMAX then t.work_duration + d else DMAX) / 5
        deadline := if t.deadline + d ≤ DMAX then t.deadline + d else t.deadline
        state := t.state } := by
  unfold PomoTimer.increase_duration checkedAdd
  by_cases h1 : t.work_duration + d ≤ DMAX <;>
    by_cases h2 : t.deadline + d ≤ DMAX <;>
      simp [h1, h2]

theorem decrease_duration_eq (t : PomoTimer) (d : Nat) :
    t.decrease_duration d =
      { work_duration :=
          if t.work_duration - d < FIVE_MIN then FIVE_MIN else t.work_duration - d
        rest_duration :=
          (if t.work_duration - d < FIVE_MIN then FIVE_MIN else t.work_duration - d) / 5
        deadline := if d ≤ t.deadline then t.deadline - d else t.deadline
        state := t.state } := by
  unfold PomoTimer.decrease_duration checkedSub
  by_cases h1 : d ≤ t.work_duration
  · by_cases h2 : d ≤ t.deadline <;> simp [h1, h2]
  · have h0 : t.work_duration - d = 0 := by omega
    have hpos : 0 < FIVE_MIN := by decide
    by_cases h2 : d ≤ t.deadline <;> simp [h1, h2, h0, hpos]

theorem increase_work_eq (t : PomoTimer) (d : Nat) :
    (t.increase_duration d).work_duration =
      if t.work_duration + d ≤ DMAX then t.work_duration + d else DMAX := by
  rw [increase_duration_eq]

theorem increase_rest_eq (t : PomoTimer) (d : Nat) :
    (t.increase_duration d).rest_duration =
      (if t.work_duration + d ≤ DMAX then t.work_duration + d else DMAX) / 5 := by
  rw [increase_duration_eq]

theorem increase_deadline_eq (t : PomoTimer) (d : Nat) :
    (t.increase_duration d).deadline =
      if t.deadline + d ≤ DMAX then t.deadline + d else t.deadline := by
  rw [increase_duration_eq]

theorem increase_state_eq (t : PomoTimer) (d : Nat) :
    (t.increase_duration d).state = t.state := by
  rw [increase_duration_eq]

theorem decrease_work_eq (t : PomoTimer) (d : Nat) :
    (t.decrease_duration d).work_duration =
      if t.work_duration - d < FIVE_MIN then FIVE_MIN else t.work_duration - d := by
  rw [decrease_duration_eq]

theorem decrease_rest_eq (t : PomoTimer) (d : Nat) :
    (t.decrease_duration d).rest_duration =
      (if t.work_duration - d < FIVE_MIN then FIVE_MIN else t.work_duration - d) / 5 := by
  rw [decrease_duration_eq]

theorem decrease_deadline_eq (t : PomoTimer) (d : Nat) :
    (t.decrease_duration d).deadline =
      if d ≤ t.deadline then t.deadline - d else t.deadline := by
  rw [decrease_duration_eq]

theorem decrease_state_eq (t : PomoTimer) (d : Nat) :
    (t.decrease_duration d).state = t.state := by
  rw [decrease_duration_eq]

/-- Claim C1: `stop` on a running timer records the pause instant and leaves
the deadline unchanged, and a later `start` from `Paused` shifts the deadline
by exactly the paused span, so the remaining time observed after resuming
equals the remaining time at the moment of pausing, for any pause length
(monotonic clock, representable shifted deadline). -/
theorem pause_resume_preserves_remaining
    (t : PomoTimer) (t1 t2 : Nat)
    (hstate : t.state = TimerState.Working ∨ t.state = TimerState.Resting)
    (hmono : t1 ≤ t2)
    (hrep : t.deadline + (t2 - t1) ≤ DMAX) :
    (t.stop t1).state = TimerState.Paused t1 ∧
    (t.stop t1).deadline = t.deadline ∧
    ∃ tr, (t.stop t1).start t2 = some tr ∧
      tr.deadline = t.deadline + (t2 - t1) ∧
      tr.time_left t2 = t.time_left t1 := by
  have hstop : t.stop t1 = { t with state := TimerState.Paused t1 } := by
    rcases hstate with h | h <;> (unfold PomoTimer.stop; rw [h])
  rw [hstop]
  refine ⟨rfl, rfl,
    ⟨{ t with state := TimerState.Working, deadline := t.deadline + (t2 - t1) },
      ?_, rfl, ?_⟩⟩
  · unfold PomoTimer.start
    simp only [checkedSub_getD]
    unfold checkedAdd
    rw [if_pos hrep]
  · rw [time_left_eq, time_left_eq]
    simp only
    omega

/-- Claim C1 witness: a concrete working timer paused at 10 and resumed at 30
keeps its remaining time. -/
theorem pause_resume_preserves_remaining_witness :
    (PomoTimer.stop
        { work_duration := 100, rest_duration := 20, deadline := 50
          state := TimerState.Working } 10).state = TimerState.Paused 10 ∧
    (PomoTimer.stop
        { work_duration := 100, rest_duration := 20, deadline := 50
          state := TimerState.Working } 10).deadline = 50 ∧
    ∃ tr, (PomoTimer.stop
        { work_duration := 100, rest_duration := 20, deadline := 50
          state := TimerState.Working } 10).start 30 = some tr ∧
      tr.deadline = 50 + (30 - 10) ∧
      tr.time_left 30 = PomoTimer.time_left
        { work_duration := 100, rest_duration := 20, deadline := 50
          state := TimerState.Working } 10 :=
  pause_resume_preserves_remaining
    { work_duration := 100, rest_duration := 20, deadline := 50
      state := TimerState.Working } 10 30
    (Or.inl rfl) (by decide) (by decide)

/-- Claim C2: the displayed remaining time is `max 0 (deadline − now)` while
`Working`/`Resting`, the frozen `max 0 (deadline − paused_at)` while `Paused`,
the full work duration while `Inactive`, and is never negative in any phase. -/
theorem remaining_time_phase_cases (t : PomoTimer) (now : Nat) :
    ((t.state = TimerState.Working ∨ t.state = TimerState.Resting) →
      (t.display_time_left now : Int) = max 0 ((t.deadline : Int) - (now : Int))) ∧
    (∀ p, t.state = TimerState.Paused p →
      (t.display_time_left now : Int) = max 0 ((t.deadline : Int) - (p : Int))) ∧
    (t.state = TimerState.Inactive → t.display_time_left now = t.work_duration) ∧
    0 ≤ (t.display_time_left now : Int) := by
  refine ⟨?_, ?_, ?_, Int.ofNat_nonneg _⟩
  · rintro (h | h) <;>
      (unfold PomoTimer.display_time_left; rw [h, time_left_eq]
       exact natSub_toInt _ _)
  · intro p h
    unfold PomoTimer.display_time_left
    rw [h]
    show ((checkedSub t.deadline p).getD 0 : Int) = max 0 ((t.deadline : Int) - (p : Int))
    rw [checkedSub_getD]
    exact natSub_toInt _ _
  · intro h
    unfold PomoTimer.display_time_left
    rw [h]

/-- Claim C2 witness: a working timer with deadline 50 at instant 30 displays
20 remaining. -/
theorem remaining_time_phase_cases_witness :
    (PomoTimer.display_time_left
      { work_duration := 100, rest_duration := 20, deadline := 50
        state := TimerState.Working } 30 : Int) = max 0 ((50 : Int) - (30 : Int)) :=
  (remaining_time_phase_cases
    { work_duration := 100, rest_duration := 20, deadline := 50
      state := TimerState.Working } 30).1 (Or.inl rfl)

/-- Claim C9: `start` on an `Inactive` timer is a no-op when the work duration
is zero; otherwise it arms `deadline = now + work_duration` and enters
`Working` (when that sum is representable). -/
theorem start_inactive_spec (t : PomoTimer) (now : Nat)
    (h : t.state = TimerState.Inactive) :
    (t.work_duration = 0 → t.start now = some t) ∧
    (t.work_duration ≠ 0 → now + t.work_duration ≤ DMAX →
      t.start now = some { t with deadline := now + t.work_duration
                                  state := TimerState.Working }) := by
  constructor
  · intro h0
    unfold PomoTimer.start
    rw [h]
    simp [h0]
  · intro h0 hrep
    unfold PomoTimer.start
    rw [h]
    rw [if_neg h0]
    unfold checkedAdd
    rw [if_pos hrep]
    rfl

/-- Claim C9 witness: starting an inactive zero-duration timer changes
nothing, and starting a nonzero one arms the deadline. -/
theorem start_inactive_spec_witness :
    PomoTimer.start
      { work_duration := 0, rest_duration := 0, deadline := 7
        state := TimerState.Inactive } 3 =
      some { work_duration := 0, rest_duration := 0, deadline := 7
             state := TimerState.Inactive } :=
  (start_inactive_spec
    { work_duration := 0, rest_duration := 0, deadline := 7
      state := TimerState.Inactive } 3 rfl).1 rfl

/-- Claim C3: `update` is a no-op unless the timer is `Working`/`Resting`
with zero remaining time, and in that case it performs exactly one phase
flip per call — `Working` to `Resting` re-arming the rest duration, or
`Resting` to `Working` re-arming the work duration — never cascading
further; while remaining time is positive every call returns the timer
unchanged (hence repeated calls produce no transition). -/
theorem update_noop_or_single_flip (t : PomoTimer) (now : Nat)
    (hw : now + t.work_duration ≤ DMAX) (hr : now + t.rest_duration ≤ DMAX) :
    ((t.state ≠ TimerState.Working ∧ t.state ≠ TimerState.Resting) →
      t.update now = some (t, false)) ∧
    (t.time_left now ≠ 0 → t.update now = some (t, false)) ∧
    (t.state = TimerState.Working → t.time_left now = 0 →
      t.update now =
        some ({ t with state := TimerState.Resting
                       deadline := now + t.rest_duration }, true)) ∧
    (t.state = TimerState.Resting → t.time_left now = 0 →
      t.update now =
        some ({ t with state := TimerState.Working
                       deadline := now + t.work_duration }, true)) := by
  obtain ⟨w, r, d, s⟩ := t
  cases s with
  | Inactive =>
      refine ⟨fun _ => rfl, fun _ => rfl, ?_, ?_⟩ <;> (intro h; simp at h)
  | Paused p =>
      refine ⟨fun _ => rfl, fun _ => rfl, ?_, ?_⟩ <;> (intro h; simp at h)
  | Working =>
      refine ⟨?_, ?_, ?_, ?_⟩
      · intro h
        exact absurd rfl h.1
      · intro hne
        unfold PomoTimer.update
        rw [if_neg hne]
      · intro _ h0
        unfold PomoTimer.update
        rw [if_pos h0]
        unfold PomoTimer.flip checkedAdd
        rw [if_pos hr]
        rfl
      · intro h
        simp at h
  | Resting =>
      refine ⟨?_, ?_, ?_, ?_⟩
      · intro h
        exact absurd rfl h.2
      · intro hne
        unfold PomoTimer.update
        rw [if_neg hne]
      · intro h
        simp at h
      · intro _ h0
        unfold PomoTimer.update
        rw [if_pos h0]
        unfold PomoTimer.flip checkedAdd
        rw [if_pos hw]
        rfl

/-- Claim C3 witness: an expired working timer flips once to `Resting`, and a
non-expired one is untouched. -/
theorem update_noop_or_single_flip_witness :
    PomoTimer.update
      { work_duration := 100, rest_duration := 20, deadline := 50
        state := TimerState.Working } 60 =
      some ({ work_duration := 100, rest_duration := 20, deadline := 60 + 20
              state := TimerState.Resting }, true) :=
  (update_noop_or_single_flip
    { work_duration := 100, rest_duration := 20, deadline := 50
      state := TimerState.Working } 60 (by decide) (by decide)).2.2.1 rfl (by decide)

/-- Claim C4 counterexample: the constructor stores the caller's rest
duration verbatim, so `new 10 7` violates `rest_duration = work_duration / 5`
immediately after construction. -/
theorem new_does_not_enforce_rest_ratio :
    (PomoTimer.new 10 7 0).rest_duration ≠ (PomoTimer.new 10 7 0).work_duration / 5 := by
  decide

/-- Claim C4 (amended): every `increase_duration`/`decrease_duration` call
re-establishes `rest_duration = work_duration / 5`, for all call sequences;
the constructor stores the given rest duration verbatim, so after
construction the invariant holds exactly when the caller passes
`work_duration / 5` (as the app does with 25 and 5 minutes). -/
theorem rest_ratio_reestablished (t : PomoTimer) (d w r now : Nat) :
    (t.increase_duration d).rest_duration = (t.increase_duration d).work_duration / 5 ∧
    (t.decrease_duration d).rest_duration = (t.decrease_duration d).work_duration / 5 ∧
    (r = w / 5 →
      (PomoTimer.new w r now).rest_duration = (PomoTimer.new w r now).work_duration / 5) := by
  refine ⟨?_, ?_, fun h => h⟩
  · rw [increase_duration_eq]
  · rw [decrease_duration_eq]

/-- Claim C4 witness: the app's constructor call (25-minute work, 5-minute
rest, in nanoseconds) satisfies the ratio invariant. -/
theorem rest_ratio_reestablished_witness :
    (PomoTimer.new (25 * 60 * 1000000000) (5 * 60 * 1000000000) 0).rest_duration =
      (PomoTimer.new (25 * 60 * 1000000000) (5 * 60 * 1000000000) 0).work_duration / 5 :=
  (rest_ratio_reestablished
    { work_duration := 0, rest_duration := 0, deadline := 0
      state := TimerState.Inactive } 0 (25 * 60 * 1000000000) (5 * 60 * 1000000000)
    0).2.2 (by decide)

/-- Claim C5: `decrease_duration` saturates at the five-minute floor for
every starting duration, decrement and call count, and on a five-minute
timer decreasing by sixty minutes leaves the work duration at five minutes
and the rest duration at one minute. -/
theorem decrease_duration_floor (t : PomoTimer) (d : Nat) :
    FIVE_MIN ≤ (t.decrease_duration d).work_duration ∧
    (t.work_duration = FIVE_MIN →
      (t.decrease_duration (60 * 60 * 1000000000)).work_duration = FIVE_MIN ∧
      (t.decrease_duration (60 * 60 * 1000000000)).rest_duration = 60 * 1000000000) := by
  constructor
  · rw [decrease_work_eq]
    split <;> omega
  · intro h
    rw [decrease_work_eq, decrease_rest_eq, h]
    norm_num [FIVE_MIN]

/-- Claim C5 witness: a concrete five-minute timer decreased by sixty minutes
keeps its five-minute work duration and one-minute rest duration. -/
theorem decrease_duration_floor_witness :
    FIVE_MIN ≤
      (PomoTimer.decrease_duration
        { work_duration := FIVE_MIN, rest_duration := 60 * 1000000000, deadline := 0
          state := TimerState.Inactive } (60 * 60 * 1000000000)).work_duration ∧
    (PomoTimer.decrease_duration
        { work_duration := FIVE_MIN, rest_duration := 60 * 1000000000, deadline := 0
          state := TimerState.Inactive } (60 * 60 * 1000000000)).work_duration = FIVE_MIN ∧
    (PomoTimer.decrease_duration
        { work_duration := FIVE_MIN, rest_duration := 60 * 1000000000, deadline := 0
          state := TimerState.Inactive } (60 * 60 * 1000000000)).rest_duration =
      60 * 1000000000 :=
  ⟨(decrease_duration_floor
      { work_duration := FIVE_MIN, rest_duration := 60 * 1000000000, deadline := 0
        state := TimerState.Inactive } (60 * 60 * 1000000000)).1,
   (decrease_duration_floor
      { work_duration := FIVE_MIN, rest_duration := 60 * 1000000000, deadline := 0
        state := TimerState.Inactive } (60 * 60 * 1000000000)).2 rfl⟩

theorem start_inactive_red (w r d now : Nat) :
    PomoTimer.start
      { work_duration := w, rest_duration := r, deadline := d
        state := TimerState.Inactive } now =
      if w = 0 then
        some { work_duration := w, rest_duration := r, deadline := d
               state := TimerState.Inactive }
      else
        some { work_duration := w, rest_duration := r
               deadline := (checkedAdd now w).getD now
               state := TimerState.Working } := rfl

theorem start_working_red (w r d now : Nat) :
    PomoTimer.start
      { work_duration := w, rest_duration := r, deadline := d
        state := TimerState.Working } now =
      some { work_duration := w, rest_duration := r, deadline := d
             state := TimerState.Working } := rfl

theorem start_resting_red (w r d now : Nat) :
    PomoTimer.start
      { work_duration := w, rest_duration := r, deadline := d
        state := TimerState.Resting } now =
      some { work_duration := w, rest_duration := r, deadline := d
             state := TimerState.Resting } := rfl

theorem start_paused_red (w r d p now : Nat) :
    PomoTimer.start
      { work_duration := w, rest_duration := r, deadline := d
        state := TimerState.Paused p } now =
      match checkedAdd d ((checkedSub now p).getD 0) with
      | some dd =>
          some { work_duration := w, rest_duration := r, deadline := dd
                 state := TimerState.Working }
      | none => none := rfl

theorem flip_inactive_red (w r d now : Nat) :
    PomoTimer.flip
      { work_duration := w, rest_duration := r, deadline := d
        state := TimerState.Inactive } now =
      (checkedAdd now w).map fun dd =>
        ({ work_duration := w, rest_duration := r, deadline := dd
           state := TimerState.Working }, true) := rfl

theorem flip_working_red (w r d now : Nat) :
    PomoTimer.flip
      { work_duration := w, rest_duration := r, deadline := d
        state := TimerState.Working } now =
      (checkedAdd now r).map fun dd =>
        ({ work_duration := w, rest_duration := r, deadline := dd
           state := TimerState.Resting }, true) := rfl

theorem flip_resting_red (w r d now : Nat) :
    PomoTimer.flip
      { work_duration := w, rest_duration := r, deadline := d
        state := TimerState.Resting } now =
      (checkedAdd now w).map fun dd =>
        ({ work_duration := w, rest_duration := r, deadline := dd
           state := TimerState.Working }, true) := rfl

theorem flip_paused_red (w r d p now : Nat) :
    PomoTimer.flip
      { work_duration := w, rest_duration := r, deadline := d
        state := TimerState.Paused p } now =
      (checkedAdd now w).map fun dd =>
        ({ work_duration := w, rest_duration := r, deadline := dd
           state := TimerState.Working }, true) := rfl

theorem update_inactive_red (w r d now : Nat) :
    PomoTimer.update
      { work_duration := w, rest_duration := r, deadline := d
        state := TimerState.Inactive } now =
      some ({ work_duration := w, rest_duration := r, deadline := d
              state := TimerState.Inactive }, false) := rfl

theorem update_paused_red (w r d p now : Nat) :
    PomoTimer.update
      { work_duration := w, rest_duration := r, deadline := d
        state := TimerState.Paused p } now =
      some ({ work_duration := w, rest_duration := r, deadline := d
              state := TimerState.Paused p }, false) := rfl

theorem update_working_red (w r d now : Nat) :
    PomoTimer.update
      { work_duration := w, rest_duration := r, deadline := d
        state := TimerState.Working } now =
      if PomoTimer.time_left
           { work_duration := w, rest_duration := r, deadline := d
             state := TimerState.Working } now = 0 then
        PomoTimer.flip
          { work_duration := w, rest_duration := r, deadline := d
            state := TimerState.Working } now
      else
        some ({ work_duration := w, rest_duration := r, deadline := d
                state := TimerState.Working }, false) := rfl

theorem update_resting_red (w r d now : Nat) :
    PomoTimer.update
      { work_duration := w, rest_duration := r, deadline := d
        state := TimerState.Resting } now =
      if PomoTimer.time_left
           { work_duration := w, rest_duration := r, deadline := d
             state := TimerState.Resting } now = 0 then
        PomoTimer.flip
          { work_duration := w, rest_duration := r, deadline := d
            state := TimerState.Resting } now
      else
        some ({ work_duration := w, rest_duration := r, deadline := d
                state := TimerState.Resting }, false) := rfl

theorem next_duration_inactive (w r d : Nat) :
    PomoTimer.next_duration
      { work_duration := w, rest_duration := r, deadline := d
        state := TimerState.Inactive } = w := rfl

theorem next_duration_working (w r d : Nat) :
    PomoTimer.next_duration
      { work_duration := w, rest_duration := r, deadline := d
        state := TimerState.Working } = r := rfl

theorem next_duration_resting (w r d : Nat) :
    PomoTimer.next_duration
      { work_duration := w, rest_duration := r, deadline := d
        state := TimerState.Resting } = w := rfl

theorem next_duration_paused (w r d p : Nat) :
    PomoTimer.next_duration
      { work_duration := w, rest_duration := r, deadline := d
        state := TimerState.Paused p } = w := rfl

/-- Claim C6 counterexample: on an `Inactive` timer `increase_duration`
still shifts the deadline — the shift is not restricted to
`Working`/`Resting`/`Paused`. -/
theorem inactive_deadline_shifted :
    (PomoTimer.new 0 0 100).state = TimerState.Inactive ∧
    ((PomoTimer.new 0 0 100).increase_duration 5).deadline ≠
      (PomoTimer.new 0 0 100).deadline := by
  decide

/-- Claim C6 (amended): `increase_duration`/`decrease_duration` shift the
deadline by the same delta in every state, `Inactive` included; when the
shift would underflow or overflow the deadline, the deadline alone is left
unchanged while the duration update still applies; the state is never
changed. -/
theorem duration_shift_deadline_all_states (t : PomoTimer) (d : Nat) :
    ((t.deadline + d ≤ DMAX → (t.increase_duration d).deadline = t.deadline + d) ∧
     (DMAX < t.deadline + d → (t.increase_duration d).deadline = t.deadline) ∧
     (t.increase_duration d).work_duration =
       (if t.work_duration + d ≤ DMAX then t.work_duration + d else DMAX) ∧
     (t.increase_duration d).state = t.state) ∧
    ((d ≤ t.deadline → (t.decrease_duration d).deadline = t.deadline - d) ∧
     (t.deadline < d → (t.decrease_duration d).deadline = t.deadline) ∧
     (t.decrease_duration d).work_duration =
       (if t.work_duration - d < FIVE_MIN then FIVE_MIN else t.work_duration - d) ∧
     (t.decrease_duration d).state = t.state) := by
  refine ⟨⟨?_, ?_, increase_work_eq t d, increase_state_eq t d⟩,
          ⟨?_, ?_, decrease_work_eq t d, decrease_state_eq t d⟩⟩
  · intro h
    rw [increase_deadline_eq, if_pos h]
  · intro h
    rw [increase_deadline_eq, if_neg (by omega)]
  · intro h
    rw [decrease_deadline_eq, if_pos h]
  · intro h
    rw [decrease_deadline_eq, if_neg (by omega)]

/-- Claim C6 witness: a concrete inactive timer has its deadline shifted
forward by an increase and back by a decrease. -/
theorem duration_shift_deadline_all_states_witness :
    ((PomoTimer.new 0 0 100).increase_duration 5).deadline = 100 + 5 ∧
    ((PomoTimer.new 0 0 100).decrease_duration 5).deadline = 100 - 5 :=
  ⟨(duration_shift_deadline_all_states (PomoTimer.new 0 0 100) 5).1.1 (by decide),
   (duration_shift_deadline_all_states (PomoTimer.new 0 0 100) 5).2.1 (by decide)⟩

/-- Claim C7: the code contradicts the claim: a timer paused while `Resting`
(paused at 10, resumed at 20) resumes into `Working`, not `Resting` — the
source marks the slip with FIXME comments. -/
theorem resume_after_rest_pause_forces_working :
    (PomoTimer.stop
       { work_duration := 100, rest_duration := 20, deadline := 50
         state := TimerState.Resting } 10).start 20 =
      some { work_duration := 100, rest_duration := 20, deadline := 60
             state := TimerState.Working } := by
  decide

/-- Claim C8 counterexample: resuming a paused timer whose deadline sits at
the representable maximum overflows the unchecked deadline shift, so `start`
terminates abnormally (the Rust `+=` panics) instead of clamping. -/
theorem start_overflow_panics :
    PomoTimer.start
      { work_duration := 100, rest_duration := 20, deadline := DMAX
        state := TimerState.Paused 0 } 1 = none := by
  decide

/-- Claim C8 (amended): the timer's arithmetic is checked or clamped except
the deadline re-arms, which use unchecked instant addition: `start` aborts
exactly when resuming would push the deadline past the representable
maximum, `flip` aborts exactly when `now` plus the next phase's duration
overflows, and `update` aborts exactly when it flips and that addition
overflows; `new`, `stop`, `reset`, `time_left`, `increase_duration` and
`decrease_duration` are total functions. -/
theorem panic_characterization (t : PomoTimer) (now : Nat) :
    (t.start now = none ↔
      ∃ p, t.state = TimerState.Paused p ∧ DMAX < t.deadline + (now - p)) ∧
    (t.flip now = none ↔ DMAX < now + t.next_duration) ∧
    (t.update now = none ↔
      ((t.state = TimerState.Working ∨ t.state = TimerState.Resting) ∧
        t.time_left now = 0 ∧ DMAX < now + t.next_duration)) := by
  obtain ⟨w, r, d, s⟩ := t
  cases s with
  | Inactive =>
      refine ⟨?_, ?_, ?_⟩
      · rw [start_inactive_red]
        split <;> simp
      · rw [flip_inactive_red, next_duration_inactive]
        unfold checkedAdd
        by_cases hc : now + w ≤ DMAX
        · rw [if_pos hc]
          simp
          omega
        · rw [if_neg hc]
          simp
          omega
      · rw [update_inactive_red]
        simp
  | Paused p =>
      refine ⟨?_, ?_, ?_⟩
      · rw [start_paused_red, checkedSub_getD]
        unfold checkedAdd
        by_cases hc : d + (now - p) ≤ DMAX
        · rw [if_pos hc]
          simp
          omega
        · rw [if_neg hc]
          simp
          omega
      · rw [flip_paused_red, next_duration_paused]
        unfold checkedAdd
        by_cases hc : now + w ≤ DMAX
        · rw [if_pos hc]
          simp
          omega
        · rw [if_neg hc]
          simp
          omega
      · rw [update_paused_red]
        simp
  | Working =>
      refine ⟨?_, ?_, ?_⟩
      · rw [start_working_red]
        simp
      · rw [flip_working_red, next_duration_working]
        unfold checkedAdd
        by_cases hc : now + r ≤ DMAX
        · rw [if_pos hc]
          simp
          omega
        · rw [if_neg hc]
          simp
          omega
      · rw [update_working_red, next_duration_working]
        by_cases h0 :
            PomoTimer.time_left
              { work_duration := w, rest_duration := r, deadline := d
                state := TimerState.Working } now = 0
        · rw [if_pos h0, flip_working_red]
          unfold checkedAdd
          by_cases hc : now + r ≤ DMAX
          · rw [if_pos hc]
            simp [h0]
            omega
          · rw [if_neg hc]
            simp [h0]
            omega
        · rw [if_neg h0]
          simp [h0]
  | Resting =>
      refine ⟨?_, ?_, ?_⟩
      · rw [start_resting_red]
        simp
      · rw [flip_resting_red, next_duration_resting]
        unfold checkedAdd
        by_cases hc : now + w ≤ DMAX
        · rw [if_pos hc]
          simp
          omega
        · rw [if_neg hc]
          simp
          omega
      · rw [update_resting_red, next_duration_resting]
        by_cases h0 :
            PomoTimer.time_left
              { work_duration := w, rest_duration := r, deadline := d
                state := TimerState.Resting } now = 0
        · rw [if_pos h0, flip_resting_red]
          unfold checkedAdd
          by_cases hc : now + w ≤ DMAX
          · rw [if_pos hc]
            simp [h0]
            omega
          · rw [if_neg hc]
            simp [h0]
            omega
        · rw [if_neg h0]
          simp [h0]

/-- Claim C10: `flip` is defined on all four states; every completed call
rings the alert, also when not triggered by a phase timeout, and it
completes whenever the re-armed deadline is representable; from `Inactive`
or `Paused` it forces `Working` with `deadline = now + work_duration`,
discarding any recorded pause instant. -/
theorem flip_total_and_rings (t : PomoTimer) (now : Nat) :
    (t.flip now = none ∨ ∃ t2, t.flip now = some (t2, true)) ∧
    (now + t.next_duration ≤ DMAX → ∃ t2, t.flip now = some (t2, true)) ∧
    (now + t.work_duration ≤ DMAX →
      ∀ p, t.state = TimerState.Inactive ∨ t.state = TimerState.Paused p →
        t.flip now = some ({ t with state := TimerState.Working
                                    deadline := now + t.work_duration }, true)) := by
  obtain ⟨w, r, d, s⟩ := t
  cases s with
  | Inactive =>
      refine ⟨?_, ?_, ?_⟩
      · rw [flip_inactive_red]
        unfold checkedAdd
        by_cases hc : now + w ≤ DMAX
        · rw [if_pos hc]
          exact Or.inr ⟨_, rfl⟩
        · rw [if_neg hc]
          exact Or.inl rfl
      · intro h
        have h2 : now + w ≤ DMAX := h
        rw [flip_inactive_red]
        unfold checkedAdd
        rw [if_pos h2]
        exact ⟨_, rfl⟩
      · intro h p _
        have h2 : now + w ≤ DMAX := h
        rw [flip_inactive_red]
        unfold checkedAdd
        rw [if_pos h2]
        rfl
  | Paused q =>
      refine ⟨?_, ?_, ?_⟩
      · rw [flip_paused_red]
        unfold checkedAdd
        by_cases hc : now + w ≤ DMAX
        · rw [if_pos hc]
          exact Or.inr ⟨_, rfl⟩
        · rw [if_neg hc]
          exact Or.inl rfl
      · intro h
        have h2 : now + w ≤ DMAX := h
        rw [flip_paused_red]
        unfold checkedAdd
        rw [if_pos h2]
        exact ⟨_, rfl⟩
      · intro h p _
        have h2 : now + w ≤ DMAX := h
        rw [flip_paused_red]
        unfold checkedAdd
        rw [if_pos h2]
        rfl
  | Working =>
      refine ⟨?_, ?_, ?_⟩
      · rw [flip_working_red]
        unfold checkedAdd
        by_cases hc : now + r ≤ DMAX
        · rw [if_pos hc]
          exact Or.inr ⟨_, rfl⟩
        · rw [if_neg hc]
          exact Or.inl rfl
      · intro h
        have h2 : now + r ≤ DMAX := h
        rw [flip_working_red]
        unfold checkedAdd
        rw [if_pos h2]
        exact ⟨_, rfl⟩
      · intro _ p hsp
        rcases hsp with h1 | h1 <;> simp at h1
  | Resting =>
      refine ⟨?_, ?_, ?_⟩
      · rw [flip_resting_red]
        unfold checkedAdd
        by_cases hc : now + w ≤ DMAX
        · rw [if_pos hc]
          exact Or.inr ⟨_, rfl⟩
        · rw [if_neg hc]
          exact Or.inl rfl
      · intro h
        have h2 : now + w ≤ DMAX := h
        rw [flip_resting_red]
        unfold checkedAdd
        rw [if_pos h2]
        exact ⟨_, rfl⟩
      · intro _ p hsp
        rcases hsp with h1 | h1 <;> simp at h1

/-- Claim C10 witness: flipping a concrete paused timer forces `Working`,
re-arms the deadline and rings. -/
theorem flip_total_and_rings_witness :
    PomoTimer.flip
      { work_duration := 100, rest_duration := 20, deadline := 50
        state := TimerState.Paused 10 } 30 =
      some ({ work_duration := 100, rest_duration := 20, deadline := 30 + 100
              state := TimerState.Working }, true) :=
  (flip_total_and_rings
    { work_duration := 100, rest_duration := 20, deadline := 50
      state := TimerState.Paused 10 } 30).2.2 (by decide) 10 (Or.inr rfl)

end Pomo
